import Mathlib

/-!
Verification of the Pisound SPI transport layer (sound/soc/bcm/pisound.c).

The SPI bus is modelled as a list of 16-bit response slots: each call to
`spi_transfer16` consumes the head of the list (a missing response reads as 0,
matching the zero-initialised `rxbuf` of the C code when the bus returns
nothing).  All multi-byte values are natural numbers reduced modulo the
relevant power of two exactly where the C code's fixed-width types truncate.
-/

namespace Pisound

/-- Capacity of the in/out kfifos (`FIFO_SIZE` in the source). -/
def FIFO_SIZE : Nat := 4096

/-- Bytes exchanged per SPI block in the work handler (`TRANSFER_SIZE`). -/
def TRANSFER_SIZE : Nat := 4

/-- Device-side MIDI output buffer size in milli-bytes
(`PISOUND_OUTPUT_BUFFER_SIZE_MILLIBYTES`). -/
def PISOUND_OUTPUT_BUFFER_SIZE_MILLIBYTES : Int := 127 * 1000

/-- Kernel tick rate `HZ` (config constant of the build; 100 on the reference
platform).  The theorems below do not depend on its exact value. -/
def HZ : Nat := 100

/-- Drain rate of the occupancy estimate (`MIDI_MILLIBYTES_PER_JIFFIE`). -/
def MIDI_MILLIBYTES_PER_JIFFIE : Int := (3125 * 1000) / (HZ : Int)

/-- One 16-bit SPI exchange (`spi_transfer16`): consumes the next response
slot from the bus; an exhausted bus reads as 0 (zeroed `rxbuf`). -/
def spi_transfer16 (bus : List Nat) : Nat × List Nat :=
  match bus with
  | [] => (0, [])
  | s :: rest => (s % 65536, rest)

/-- High (validity / length-marker) byte of a 16-bit slot value. -/
def hi (slot : Nat) : Nat := slot / 256

/-- Low (payload) byte of a 16-bit slot value. -/
def lo (slot : Nat) : Nat := slot % 256

/-- The 16-bit value produced by the i-th `spi_transfer16` on a given bus. -/
def slotAt (bus : List Nat) (i : Nat) : Nat := (bus.getD i 0) % 65536

/-- The payload-reading for-loop of `spi_read_bytes`: reads `size` slots,
each of which must have a non-zero high byte; collects the low bytes. -/
def readBody : Nat → List Nat → Option (List Nat) × List Nat
  | 0, bus => (some [], bus)
  | size + 1, bus =>
    let t := spi_transfer16 bus
    if hi t.1 = 0 then (none, t.2)
    else
      match readBody size t.2 with
      | (some rest, b2) => (some (lo t.1 :: rest), b2)
      | (none, b2) => (none, b2)

/-- `spi_read_bytes`: reads one length-prefixed record into a destination of
capacity `len`.  Errors (-EINVAL, modelled as `Except.error ()`) when the
length slot's high byte is zero, when the reported size exceeds the
destination capacity, or when a payload slot's high byte is zero.  On success
returns the payload bytes (the C code additionally reports their count via
`*bytesRead`, which equals the length of the returned list). -/
def spi_read_bytes (bus : List Nat) (len : Nat) : Except Unit (List Nat) × List Nat :=
  let t := spi_transfer16 bus
  if hi t.1 = 0 then (.error (), t.2)
  else
    let size := lo t.1
    if len < size then (.error (), t.2)
    else
      match readBody size t.2 with
      | (some payload, b2) => (.ok payload, b2)
      | (none, b2) => (.error (), b2)

/-- Lowercase hex rendering with no padding (C `printf` `%x`). -/
def hexStr (n : Nat) : String := String.mk (Nat.toDigits 16 n)

/-- Two-digit lowercase hex (C `printf` `%02x`). -/
def hex2Str (n : Nat) : String := if n < 16 then "0" ++ hexStr n else hexStr n

/-- `snprintf(dst, 6, "%x.%02x", a, b)` -- the firmware version format. -/
def versionStr2 (a b : Nat) : String := (hexStr a ++ "." ++ hex2Str b).take 5

/-- `snprintf(dst, 6, "%x.%x", a, b)` -- the hardware version format. -/
def versionStr1 (a b : Nat) : String := (hexStr a ++ "." ++ hexStr b).take 5

/-- The C string stored in `g_serial_num` after `memcpy` from the zeroed
record buffer: the payload bytes up to the first NUL. -/
def serialStr (payload : List Nat) : String :=
  String.mk ((payload.takeWhile (fun b => b ≠ 0)).map Char.ofNat)

/-- The hex id string built by the `sprintf(p, "%02x", buffer[j])` loop. -/
def idStr (payload : List Nat) : String :=
  String.join (payload.map hex2Str)

/-- Identity published by a successful handshake (`g_serial_num`, `g_id`,
`g_fw_version`, `g_hw_version`). -/
structure DeviceInfo where
  serial : String
  id : String
  fw_version : String
  hw_version : String
deriving DecidableEq, Repr

/-- The `switch (i)` of `spi_read_info`: dispatch record `i` with payload
`payload` (of length `n = bytesRead`) into the identity fields. -/
def applyRecord (i : Nat) (payload : List Nat) (info : DeviceInfo) :
    Except Unit DeviceInfo :=
  match i with
  | 0 =>
    if payload.length = 2 then
      .ok { info with fw_version := versionStr2 (payload.getD 0 0) (payload.getD 1 0) }
    else .error ()
  | 1 =>
    if 11 ≤ payload.length then .error ()
    else .ok { info with serial := serialStr payload }
  | 2 =>
    if 25 ≤ 2 * payload.length then .error ()
    else .ok { info with id := idStr payload }
  | 3 =>
    if payload.length = 2 then
      .ok { info with hw_version := versionStr1 (payload.getD 0 0) (payload.getD 1 0) }
    else .error ()
  | _ => .ok info

/-- The record loop of `spi_read_info`: reads `remaining` records starting at
position `i`, each into a 256-byte destination. -/
def readInfoLoop : Nat → Nat → DeviceInfo → List Nat →
    Except Unit DeviceInfo × List Nat
  | _, 0, info, bus => (.ok info, bus)
  | i, remaining + 1, info, bus =>
    match spi_read_bytes bus 256 with
    | (.ok payload, b2) =>
      match applyRecord i payload info with
      | .ok info2 => readInfoLoop (i + 1) remaining info2 b2
      | .error e => (.error e, b2)
    | (.error e, b2) => (.error e, b2)

/-- `spi_read_info`: the device handshake.  Reads the count slot, then one
length-prefixed record per position.  The hardware version defaults to
"1.0". -/
def spi_read_info (bus : List Nat) : Except Unit DeviceInfo × List Nat :=
  let init : DeviceInfo :=
    { serial := "", id := "", fw_version := "", hw_version := "1.0" }
  let t := spi_transfer16 bus
  if hi t.1 = 0 then (.error (), t.2)
  else readInfoLoop 0 (lo t.1) init t.2

/-- `pisnd_spi_get_serial`. -/
def pisnd_spi_get_serial (info : DeviceInfo) : String := info.serial

/-- `pisnd_spi_get_id`. -/
def pisnd_spi_get_id (info : DeviceInfo) : String := info.id

/-- `pisnd_spi_get_fw_version`. -/
def pisnd_spi_get_fw_version (info : DeviceInfo) : String := info.fw_version

/-- `pisnd_spi_get_hw_version`. -/
def pisnd_spi_get_hw_version (info : DeviceInfo) : String := info.hw_version

/-- Bus trace for the round-trip scenario: count slot reporting 4 records,
then fw=[0x01,0x02], serial="ABC1234567", id=[0xDE,0xAD], hw=[0x01,0x00],
every slot with a non-zero validity high byte. -/
def c1Bus : List Nat :=
  [0x0104,
   0x0102, 0x0101, 0x0102,
   0x010A, 0x0141, 0x0142, 0x0143, 0x0131, 0x0132, 0x0133, 0x0134, 0x0135,
   0x0136, 0x0137,
   0x0102, 0x01DE, 0x01AD,
   0x0102, 0x0101, 0x0100]

/-- Identity expected from the round-trip scenario. -/
def c1Info : DeviceInfo :=
  { serial := "ABC1234567", id := "dead", fw_version := "1.02", hw_version := "1.0" }

/-! ## Transfer session (`pisnd_work_handler`) -/

/-- Persistent module state touched by the work handler: the two kfifos
(front of the list = next element out), the LED flash request
(`g_ledFlashDuration` / `g_ledFlashDurationChanged`), whether an SPI device,
a MIDI output substream and a receive callback are present. -/
structure GState where
  fifoOut : List Nat
  fifoIn : List Nat
  ledFlashDuration : Nat
  ledFlashDurationChanged : Bool
  devicePresent : Bool
  midiActive : Bool
  callbackSet : Bool
deriving DecidableEq, Repr

/-- Per-iteration environment of the session loop: the bytes the MIDI output
substream would yield to `snd_rawmidi_transmit_peek`, the `TRANSFER_SIZE`
bytes the device answers on the block exchange (all zero on a bus error),
the `data_available` line level at the loop check, and the `jiffies` value at
the drain update. -/
structure Env where
  midiPeek : List Nat
  rx : List Nat
  hasMore : Bool
  now : Nat
deriving DecidableEq, Repr

/-- `kfifo_put`: appends if capacity remains, otherwise drops. -/
def kput (f : List Nat) (b : Nat) : List Nat :=
  if f.length < FIFO_SIZE then f ++ [b % 256] else f

/-- Result of the transmit-block building for-loop. -/
structure TxBuild where
  pairs : List (Nat × Nat)
  led : Bool
  dur : Nat
  q : List Nat
  out : Int
deriving DecidableEq, Repr

/-- The transmit for-loop of the work handler, one slot pair per step:
the loop guard re-checks `out + 1000 < ceiling || ledChanged` before each
pair; an LED command is encoded first (and the request cleared),
else one byte is popped from the outbound queue (marker `0x0f`, occupancy
charged 1000 milli-bytes), else the pair stays zeroed. -/
def buildTx : Nat → Bool → Nat → List Nat → Int → TxBuild
  | 0, led, dur, q, out => ⟨[], led, dur, q, out⟩
  | n + 1, led, dur, q, out =>
    if out + 1000 < PISOUND_OUTPUT_BUFFER_SIZE_MILLIBYTES ∨ led = true then
      if led then
        let r := buildTx n false 0 q out
        ⟨(0xf0, dur) :: r.pairs, r.led, r.dur, r.q, r.out⟩
      else
        match q with
        | [] =>
          let r := buildTx n led dur [] out
          ⟨(0, 0) :: r.pairs, r.led, r.dur, r.q, r.out⟩
        | v :: q2 =>
          let r := buildTx n led dur q2 (out + 1000)
          ⟨(0x0f, v % 256) :: r.pairs, r.led, r.dur, r.q, r.out⟩
    else ⟨List.replicate (n + 1) (0, 0), led, dur, q, out⟩

/-- Slot pairs per transmit block: the for-loop steps `i` by 2 over
`TRANSFER_SIZE` bytes. -/
def BLOCK_PAIRS : Nat := TRANSFER_SIZE / 2

/-- Build one transmit block exactly as the work handler does. -/
def buildBlock (led : Bool) (dur : Nat) (q : List Nat) (out : Int) : TxBuild :=
  buildTx BLOCK_PAIRS led dur q out

/-- Receive processing of one slot pair: `kfifo_put` the payload byte, then
invoke the receive callback (which drains the whole inbound fifo via
`pisnd_spi_recv`) when the fifo holds more than 16 bytes. -/
def pushIn (g : GState) (b : Nat) : GState :=
  let f := kput g.fifoIn b
  if 16 < f.length ∧ g.callbackSet then { g with fifoIn := [] }
  else { g with fifoIn := f }

/-- The receive for-loop over the block: pairs at byte offsets 0 and 2; a
non-zero validity byte pushes the payload byte and marks `had_data`. -/
def recvStep (g : GState) (rx : List Nat) : GState × Bool :=
  let r := fun i => (rx.getD i 0) % 256
  let s0 := if r 0 ≠ 0 then (pushIn g (r 1), true) else (g, false)
  let s1 := if r 2 ≠ 0 then (pushIn s0.1 (r 3), true) else s0
  s1

/-- Session-local state: the persistent state plus the local variables
`out_buffer_used_millibytes` and `last_transfer_at` of the handler. -/
structure SessionSt where
  g : GState
  out : Int
  lastTransferAt : Nat
deriving DecidableEq, Repr

/-- Result of one iteration of the do-while loop. -/
structure IterResult where
  st : SessionSt
  tx : List (Nat × Nat)
  cont : Bool
deriving DecidableEq, Repr

/-- The best-effort MIDI peek at the top of the loop body: when a MIDI
output substream is open and the outbound fifo has room for a whole block,
the peeked bytes (at most one block's worth) are pushed into the outbound
fifo and acknowledged. -/
def midiStep (g : GState) (e : Env) : GState :=
  if g.midiActive ∧ TRANSFER_SIZE ≤ FIFO_SIZE - g.fifoOut.length ∧
      e.midiPeek ≠ [] then
    { g with fifoOut := (e.midiPeek.take TRANSFER_SIZE).foldl kput g.fifoOut }
  else g

/-- The elapsed-time drain of the occupancy estimate: when `jiffies` moved,
subtract the elapsed jiffies times the UART byte rate and clamp at zero. -/
def drainStep (out : Int) (lastAt now : Nat) : Int × Nat :=
  if now ≠ lastAt then
    let o := out - ((now - lastAt : Nat) : Int) * MIDI_MILLIBYTES_PER_JIFFIE
    ((if o < 0 then 0 else o), now)
  else (out, lastAt)

/-- One iteration of the work handler's do-while body: best-effort MIDI peek
into the outbound fifo, transmit-block build, SPI exchange, elapsed-time
drain of the occupancy estimate (clamped at zero), receive processing, and
the loop-continuation test. -/
def workIter (st : SessionSt) (e : Env) : IterResult :=
  let g := midiStep st.g e
  let b := buildBlock g.ledFlashDurationChanged g.ledFlashDuration g.fifoOut st.out
  let g2 := { g with
    ledFlashDurationChanged := b.led
    ledFlashDuration := b.dur
    fifoOut := b.q }
  let p := drainStep b.out st.lastTransferAt e.now
  let s := recvStep g2 e.rx
  let cont := s.2 || !s.1.fifoOut.isEmpty || e.hasMore ||
    s.1.ledFlashDurationChanged || decide (p.1 ≠ 0)
  ⟨⟨s.1, p.1, p.2⟩, b.pairs, cont⟩

/-- The do-while loop, fuel-bounded: returns `none` when the fuel runs out
with the continuation condition still true, otherwise the concatenated
transmit trace and the final state. -/
def runLoop : Nat → SessionSt → (Nat → Env) → Nat →
    Option (List (Nat × Nat) × SessionSt)
  | 0, _, _, _ => none
  | fuel + 1, st, envs, k =>
    let r := workIter st (envs k)
    if r.cont then
      match runLoop fuel r.st envs (k + 1) with
      | some (trace, fin) => some (r.tx ++ trace, fin)
      | none => none
    else some (r.tx, r.st)

/-- The post-loop flush: once the do-while loop exits, if the inbound fifo
is non-empty and a receive callback is set, the callback is invoked once
more (draining the fifo). -/
def finalFlush (st : SessionSt) : SessionSt :=
  if st.g.fifoIn ≠ [] ∧ st.g.callbackSet then
    { st with g := { st.g with fifoIn := [] } }
  else st

/-- `pisnd_work_handler`: bails out if no SPI device is attached, otherwise
runs the do-while loop with the occupancy estimate initialised to zero and
`last_transfer_at` initialised to the current `jiffies`, then flushes the
inbound fifo through the receive callback once more. -/
def pisnd_work_handler (fuel : Nat) (g : GState) (envs : Nat → Env)
    (startJiffies : Nat) : Option (List (Nat × Nat) × SessionSt) :=
  if g.devicePresent then
    match runLoop fuel ⟨g, 0, startJiffies⟩ envs 0 with
    | some (trace, fin) => some (trace, finalFlush fin)
    | none => none
  else some ([], ⟨g, 0, startJiffies⟩)

/-- `pisnd_spi_flash_leds`: stores the duration and marks the request
pending (last write wins). -/
def pisnd_spi_flash_leds (duration : Nat) (g : GState) : GState :=
  { g with ledFlashDuration := duration % 256, ledFlashDurationChanged := true }

/-! ## Wire codec lemmas -/

theorem spi_transfer16_eq (bus : List Nat) :
    spi_transfer16 bus = (slotAt bus 0, bus.tail) := by
  cases bus <;> simp [spi_transfer16, slotAt]

theorem slotAt_tail (bus : List Nat) (i : Nat) :
    slotAt bus.tail i = slotAt bus (i + 1) := by
  cases bus <;> simp [slotAt]

theorem readBody_ok (size : Nat) (bus : List Nat)
    (h : ∀ i < size, hi (slotAt bus i) ≠ 0) :
    (readBody size bus).1 =
      some ((List.range size).map fun i => lo (slotAt bus i)) := by
  induction size generalizing bus with
  | zero => simp [readBody]
  | succ n ih =>
    have h0 : hi (slotAt bus 0) ≠ 0 := h 0 (Nat.succ_pos n)
    have htail : ∀ i < n, hi (slotAt bus.tail i) ≠ 0 := by
      intro i hin
      rw [slotAt_tail]
      exact h (i + 1) (Nat.succ_lt_succ hin)
    have := ih bus.tail htail
    rw [readBody, spi_transfer16_eq bus]
    simp only [if_neg h0]
    rcases hr : readBody n bus.tail with ⟨o, b2⟩
    rw [hr] at this
    simp only at this
    subst this
    simp [List.range_succ_eq_map, List.map_map, Function.comp, slotAt_tail]

theorem readBody_err (size : Nat) (bus : List Nat)
    (h : ∃ i, i < size ∧ hi (slotAt bus i) = 0) :
    (readBody size bus).1 = none := by
  induction size generalizing bus with
  | zero =>
    rcases h with ⟨i, hi0, _⟩
    exact absurd hi0 (Nat.not_lt_zero i)
  | succ n ih =>
    rw [readBody, spi_transfer16_eq bus]
    by_cases h0 : hi (slotAt bus 0) = 0
    · simp [h0]
    · simp only [if_neg h0]
      rcases h with ⟨i, hilt, hiz⟩
      cases i with
      | zero => exact absurd hiz h0
      | succ j =>
        have : (readBody n bus.tail).1 = none := by
          refine ih bus.tail ⟨j, Nat.lt_of_succ_lt_succ hilt, ?_⟩
          rw [slotAt_tail]; exact hiz
        rcases hr : readBody n bus.tail with ⟨o, b2⟩
        rw [hr] at this
        simp only at this
        subst this
        simp

theorem spi_read_bytes_unfold (bus : List Nat) (len : Nat) :
    spi_read_bytes bus len =
      (if hi (slotAt bus 0) = 0 then (.error (), bus.tail)
       else if len < lo (slotAt bus 0) then (.error (), bus.tail)
       else match readBody (lo (slotAt bus 0)) bus.tail with
         | (some payload, b2) => (.ok payload, b2)
         | (none, b2) => (.error (), b2)) := by
  rw [spi_read_bytes, spi_transfer16_eq]

/-- C2: `spi_read_bytes` errors exactly when the first slot's validity byte
is zero, or the reported length (its low byte) exceeds the destination
capacity, or some payload slot's validity byte is zero; otherwise it returns
exactly the reported number of payload bytes. -/
theorem spi_read_bytes_characterization (bus : List Nat) (len : Nat) :
    ((spi_read_bytes bus len).1 = .error () ↔
      hi (slotAt bus 0) = 0 ∨ len < lo (slotAt bus 0) ∨
        ∃ i, i < lo (slotAt bus 0) ∧ hi (slotAt bus (i + 1)) = 0) ∧
    (hi (slotAt bus 0) ≠ 0 → lo (slotAt bus 0) ≤ len →
      (∀ i < lo (slotAt bus 0), hi (slotAt bus (i + 1)) ≠ 0) →
      (spi_read_bytes bus len).1 =
        .ok ((List.range (lo (slotAt bus 0))).map
          fun i => lo (slotAt bus (i + 1))) ∧
      ((List.range (lo (slotAt bus 0))).map
        fun i => lo (slotAt bus (i + 1))).length = lo (slotAt bus 0)) := by
  rw [spi_read_bytes_unfold]
  by_cases h0 : hi (slotAt bus 0) = 0
  · simp [h0]
  · simp only [if_neg h0]
    by_cases h1 : len < lo (slotAt bus 0)
    · simp only [if_pos h1]
      constructor
      · simp [h0, h1]
      · intro _ hle _
        exact absurd h1 (Nat.not_lt.mpr hle)
    · simp only [if_neg h1]
      by_cases hz : ∃ i, i < lo (slotAt bus 0) ∧ hi (slotAt bus (i + 1)) = 0
      · have hnone : (readBody (lo (slotAt bus 0)) bus.tail).1 = none := by
          rcases hz with ⟨i, hlt, hzz⟩
          refine readBody_err _ _ ⟨i, hlt, ?_⟩
          rw [slotAt_tail]; exact hzz
        rcases hr : readBody (lo (slotAt bus 0)) bus.tail with ⟨o, b2⟩
        rw [hr] at hnone
        simp only at hnone
        subst hnone
        constructor
        · simp [h0, h1, hz]
        · intro _ _ hvalid
          rcases hz with ⟨i, hlt, hzz⟩
          exact absurd hzz (hvalid i hlt)
      · have hv : ∀ i < lo (slotAt bus 0), hi (slotAt bus.tail i) ≠ 0 := by
          intro i hlt
          rw [slotAt_tail]
          intro hc
          exact hz ⟨i, hlt, hc⟩
        have hok := readBody_ok (lo (slotAt bus 0)) bus.tail hv
        rcases hr : readBody (lo (slotAt bus 0)) bus.tail with ⟨o, b2⟩
        rw [hr] at hok
        simp only at hok
        subst hok
        constructor
        · simp [h0, h1, hz]
        · intro _ _ _
          refine ⟨?_, by simp⟩
          simp [slotAt_tail]

/-- Witness for C2: a record of reported length 2 with valid payload slots
0x0105, 0x0107 reads successfully as the bytes [5, 7]. -/
theorem spi_read_bytes_characterization_witness :
    (spi_read_bytes [0x0102, 0x0105, 0x0107] 2).1 = .ok [5, 7] := by
  have h := (spi_read_bytes_characterization [0x0102, 0x0105, 0x0107] 2).2
    (by decide) (by decide) (by decide)
  exact h.1.trans (by rfl)

/-! ## Transmit-block lemmas -/

theorem buildTx_succ (m : Nat) (led : Bool) (dur : Nat) (q : List Nat)
    (out : Int) :
    buildTx (m + 1) led dur q out =
      (if out + 1000 < PISOUND_OUTPUT_BUFFER_SIZE_MILLIBYTES ∨ led = true then
        if led then
          let r := buildTx m false 0 q out
          ⟨(0xf0, dur) :: r.pairs, r.led, r.dur, r.q, r.out⟩
        else
          match q with
          | [] =>
            let r := buildTx m led dur [] out
            ⟨(0, 0) :: r.pairs, r.led, r.dur, r.q, r.out⟩
          | v :: q2 =>
            let r := buildTx m led dur q2 (out + 1000)
            ⟨(0x0f, v % 256) :: r.pairs, r.led, r.dur, r.q, r.out⟩
      else ⟨List.replicate (m + 1) (0, 0), led, dur, q, out⟩) := by
  cases led <;> cases q <;> rfl

theorem buildTx_led (m : Nat) (dur : Nat) (q : List Nat) (out : Int) :
    buildTx (m + 1) true dur q out =
      ⟨(0xf0, dur) :: (buildTx m false 0 q out).pairs,
       (buildTx m false 0 q out).led, (buildTx m false 0 q out).dur,
       (buildTx m false 0 q out).q, (buildTx m false 0 q out).out⟩ := by
  rw [buildTx_succ, if_pos (Or.inr rfl), if_pos rfl]

theorem buildTx_room_nil (m : Nat) (dur : Nat) (out : Int)
    (hg : out + 1000 < PISOUND_OUTPUT_BUFFER_SIZE_MILLIBYTES) :
    buildTx (m + 1) false dur [] out =
      ⟨(0, 0) :: (buildTx m false dur [] out).pairs,
       (buildTx m false dur [] out).led, (buildTx m false dur [] out).dur,
       (buildTx m false dur [] out).q, (buildTx m false dur [] out).out⟩ := by
  rw [buildTx_succ, if_pos (Or.inl hg), if_neg Bool.false_ne_true]

theorem buildTx_room_cons (m : Nat) (dur v : Nat) (q2 : List Nat) (out : Int)
    (hg : out + 1000 < PISOUND_OUTPUT_BUFFER_SIZE_MILLIBYTES) :
    buildTx (m + 1) false dur (v :: q2) out =
      ⟨(0x0f, v % 256) :: (buildTx m false dur q2 (out + 1000)).pairs,
       (buildTx m false dur q2 (out + 1000)).led,
       (buildTx m false dur q2 (out + 1000)).dur,
       (buildTx m false dur q2 (out + 1000)).q,
       (buildTx m false dur q2 (out + 1000)).out⟩ := by
  rw [buildTx_succ, if_pos (Or.inl hg), if_neg Bool.false_ne_true]

theorem buildTx_no_room (m : Nat) (dur : Nat) (q : List Nat) (out : Int)
    (hg : ¬out + 1000 < PISOUND_OUTPUT_BUFFER_SIZE_MILLIBYTES) :
    buildTx (m + 1) false dur q out =
      ⟨List.replicate (m + 1) (0, 0), false, dur, q, out⟩ := by
  rw [buildTx_succ, if_neg (by simp [hg])]

theorem buildTx_pairs_length (n : Nat) (led : Bool) (dur : Nat) (q : List Nat)
    (out : Int) : (buildTx n led dur q out).pairs.length = n := by
  induction n generalizing led dur q out with
  | zero => rfl
  | succ m ih =>
    cases led with
    | true => rw [buildTx_led]; simp [ih]
    | false =>
      by_cases hg : out + 1000 < PISOUND_OUTPUT_BUFFER_SIZE_MILLIBYTES
      · cases q with
        | nil => rw [buildTx_room_nil m dur out hg]; simp [ih]
        | cons v q2 => rw [buildTx_room_cons m dur v q2 out hg]; simp [ih]
      · rw [buildTx_no_room m dur q out hg]; simp

theorem getD_replicate_pair (m k : Nat) :
    (List.replicate m ((0 : Nat), (0 : Nat))).getD k (0, 0) = (0, 0) := by
  rw [List.getD_eq_getElem?_getD, List.getElem?_replicate]
  by_cases h : k < m <;> simp [h]

/-- In the transmit for-loop, a byte popped from the outbound queue (marker
`0x0f`) is placed at pair `k` only when the occupancy estimate current at
that pair -- the entry estimate plus 1000 per earlier data pair -- plus one
pending byte-equivalent is strictly below the ceiling. -/
theorem buildTx_data_gated (n : Nat) (led : Bool) (dur : Nat) (q : List Nat)
    (out : Int) (k : Nat)
    (h : ((buildTx n led dur q out).pairs.getD k (0, 0)).1 = 0x0f) :
    out + 1000 * (((buildTx n led dur q out).pairs.take k).countP
        (fun p => decide (p.1 = 0x0f))) + 1000 <
      PISOUND_OUTPUT_BUFFER_SIZE_MILLIBYTES := by
  induction n generalizing led dur q out k with
  | zero => simp [buildTx] at h
  | succ m ih =>
    cases led with
    | true =>
      rw [buildTx_led] at h ⊢
      cases k with
      | zero => simp at h
      | succ j =>
        simp only [List.getD_cons_succ] at h
        have := ih false 0 q out j h
        simpa [List.take_succ_cons, List.countP_cons] using this
    | false =>
      by_cases hg : out + 1000 < PISOUND_OUTPUT_BUFFER_SIZE_MILLIBYTES
      · cases q with
        | nil =>
          rw [buildTx_room_nil m dur out hg] at h ⊢
          cases k with
          | zero => simp at h
          | succ j =>
            simp only [List.getD_cons_succ] at h
            have := ih false dur [] out j h
            simpa [List.take_succ_cons, List.countP_cons] using this
        | cons v q2 =>
          rw [buildTx_room_cons m dur v q2 out hg] at h ⊢
          cases k with
          | zero => simpa using hg
          | succ j =>
            simp only [List.getD_cons_succ] at h
            have := ih false dur q2 (out + 1000) j h
            simp only [List.take_succ_cons, List.countP_cons,
              decide_eq_true_eq, decide_True, if_true]
            push_cast
            push_cast at this
            linarith
      · rw [buildTx_no_room m dur q out hg] at h
        rw [getD_replicate_pair] at h
        exact absurd h (by decide)

/-- Starting from a `false` LED flag, the transmit for-loop never touches the
LED state. -/
theorem buildTx_led_false (n : Nat) (dur : Nat) (q : List Nat) (out : Int) :
    (buildTx n false dur q out).led = false ∧
    (buildTx n false dur q out).dur = dur := by
  induction n generalizing dur q out with
  | zero => exact ⟨rfl, rfl⟩
  | succ m ih =>
    by_cases hg : out + 1000 < PISOUND_OUTPUT_BUFFER_SIZE_MILLIBYTES
    · cases q with
      | nil => rw [buildTx_room_nil m dur out hg]; exact ih dur [] out
      | cons v q2 => rw [buildTx_room_cons m dur v q2 out hg]; exact ih dur q2 (out + 1000)
    · rw [buildTx_no_room m dur q out hg]; exact ⟨rfl, rfl⟩

/-- Starting from a `false` LED flag, no pair of the block carries the LED
command marker `0xf0`. -/
theorem buildTx_no_led_pair (n : Nat) (dur : Nat) (q : List Nat) (out : Int) :
    (buildTx n false dur q out).pairs.countP
      (fun p => decide (p.1 = 0xf0)) = 0 := by
  induction n generalizing dur q out with
  | zero => rfl
  | succ m ih =>
    by_cases hg : out + 1000 < PISOUND_OUTPUT_BUFFER_SIZE_MILLIBYTES
    · cases q with
      | nil =>
        rw [buildTx_room_nil m dur out hg]
        simpa [List.countP_cons] using ih dur [] out
      | cons v q2 =>
        rw [buildTx_room_cons m dur v q2 out hg]
        simpa [List.countP_cons] using ih dur q2 (out + 1000)
    · rw [buildTx_no_room m dur q out hg]
      refine List.countP_eq_zero.mpr ?_
      intro a ha
      simp [List.eq_of_mem_replicate ha]

/-- The transmit for-loop only ever adds to the occupancy estimate. -/
theorem buildTx_out_mono (n : Nat) (led : Bool) (dur : Nat) (q : List Nat)
    (out : Int) : out ≤ (buildTx n led dur q out).out := by
  induction n generalizing led dur q out with
  | zero => exact le_refl _
  | succ m ih =>
    cases led with
    | true => rw [buildTx_led]; exact ih false 0 q out
    | false =>
      by_cases hg : out + 1000 < PISOUND_OUTPUT_BUFFER_SIZE_MILLIBYTES
      · cases q with
        | nil => rw [buildTx_room_nil m dur out hg]; exact ih false dur [] out
        | cons v q2 =>
          rw [buildTx_room_cons m dur v q2 out hg]
          have := ih false dur q2 (out + 1000)
          show out ≤ (buildTx m false dur q2 (out + 1000)).out
          linarith
      · rw [buildTx_no_room m dur q out hg]

/-! ## Session loop lemmas -/

theorem recvStep_had (g : GState) (rx : List Nat) :
    (recvStep g rx).2 =
      (decide ((rx.getD 0 0) % 256 ≠ 0) || decide ((rx.getD 2 0) % 256 ≠ 0)) := by
  simp only [recvStep]
  by_cases h0 : (rx.getD 0 0) % 256 = 0
  · by_cases h2 : (rx.getD 2 0) % 256 = 0
    · rw [if_neg (not_not_intro h0), if_neg (not_not_intro h2)]
      simp only [List.getD_eq_getElem?_getD] at h0 h2
      simp [h0, h2]
    · rw [if_neg (not_not_intro h0), if_pos h2]
      simp only [List.getD_eq_getElem?_getD] at h0 h2
      simp [h0, h2]
  · by_cases h2 : (rx.getD 2 0) % 256 = 0
    · rw [if_pos h0, if_neg (not_not_intro h2)]
      simp only [List.getD_eq_getElem?_getD] at h0 h2
      simp [h0, h2]
    · rw [if_pos h0, if_pos h2]
      simp only [List.getD_eq_getElem?_getD] at h0 h2
      simp [h0, h2]

/-- C3: the do-while loop of the transfer session runs another iteration
exactly when, at the end of the iteration, some received slot pair of that
iteration had a non-zero validity byte, or the outbound queue is non-empty,
or the data-available line is asserted, or an LED command is still pending,
or the occupancy estimate is non-zero. -/
theorem loop_continuation (st : SessionSt) (e : Env) :
    (workIter st e).cont = true ↔
      ((e.rx.getD 0 0) % 256 ≠ 0 ∨ (e.rx.getD 2 0) % 256 ≠ 0) ∨
      (workIter st e).st.g.fifoOut ≠ [] ∨
      e.hasMore = true ∨
      (workIter st e).st.g.ledFlashDurationChanged = true ∨
      (workIter st e).st.out ≠ 0 := by
  simp only [workIter, recvStep_had]
  simp [or_assoc, List.isEmpty_iff]

/-- The elapsed-time drain never leaves a negative estimate. -/
theorem drainStep_nonneg (out : Int) (lastAt now : Nat) (h : 0 ≤ out) :
    0 ≤ (drainStep out lastAt now).1 := by
  unfold drainStep
  by_cases hc : now ≠ lastAt
  · rw [if_pos hc]
    show 0 ≤ (if out - ((now - lastAt : Nat) : Int) * MIDI_MILLIBYTES_PER_JIFFIE < 0
      then 0 else out - ((now - lastAt : Nat) : Int) * MIDI_MILLIBYTES_PER_JIFFIE)
    split
    · exact le_refl 0
    · next ho => exact not_lt.mp ho
  · rw [if_neg hc]
    exact h

/-- C5: across one loop iteration the occupancy estimate stays non-negative
(the elapsed-time drain is clamped at zero), and an ordinary outbound byte
is placed into a transmit slot only when the occupancy estimate current at
that slot plus one pending byte-equivalent (1000 milli-byte units) is
strictly below the 127000 milli-byte ceiling. -/
theorem occupancy_bound (st : SessionSt) (e : Env) (hnn : 0 ≤ st.out) :
    0 ≤ (workIter st e).st.out ∧
    (∀ led dur q out k,
      ((buildBlock led dur q out).pairs.getD k (0, 0)).1 = 0x0f →
      out + 1000 * (((buildBlock led dur q out).pairs.take k).countP
          (fun p => decide (p.1 = 0x0f))) + 1000 <
        PISOUND_OUTPUT_BUFFER_SIZE_MILLIBYTES) := by
  constructor
  · have hb := buildTx_out_mono BLOCK_PAIRS (midiStep st.g e).ledFlashDurationChanged
      (midiStep st.g e).ledFlashDuration (midiStep st.g e).fifoOut st.out
    show 0 ≤ (drainStep (buildBlock (midiStep st.g e).ledFlashDurationChanged
      (midiStep st.g e).ledFlashDuration (midiStep st.g e).fifoOut st.out).out
      st.lastTransferAt e.now).1
    exact drainStep_nonneg _ _ _ (le_trans hnn hb)
  · intro led dur q out k h
    exact buildTx_data_gated BLOCK_PAIRS led dur q out k h

/-- Witness for C5 at a concrete state with occupancy 0. -/
theorem occupancy_bound_witness :
    (0 : Int) ≤ (workIter ⟨⟨[7], [], 0, false, true, false, false⟩, 0, 0⟩
      ⟨[], [0, 0, 0, 0], false, 1⟩).st.out :=
  (occupancy_bound ⟨⟨[7], [], 0, false, true, false, false⟩, 0, 0⟩
    ⟨[], [0, 0, 0, 0], false, 1⟩ (by decide)).1

/-- C6: in a transmit block, a pending LED command is encoded in the first
slot pair -- before, and instead of, any outbound-queue byte -- even when
the headroom check fails (the quantification over `out` includes values at
or above the ceiling); the build clears the LED flag and stored duration, so
the command is consumed exactly once (exactly one LED pair is produced, and
none when no request is pending); an ordinary outbound byte is encoded only
under the headroom check. -/
theorem led_priority :
    (∀ dur q (out : Int),
      (buildBlock true dur q out).pairs.headD (0, 0) = (0xf0, dur) ∧
      (buildBlock true dur q out).led = false ∧
      (buildBlock true dur q out).dur = 0 ∧
      (buildBlock true dur q out).pairs.countP
        (fun p => decide (p.1 = 0xf0)) = 1) ∧
    (∀ dur q (out : Int),
      (buildBlock false dur q out).pairs.countP
        (fun p => decide (p.1 = 0xf0)) = 0) ∧
    (∀ led dur q (out : Int) k,
      ((buildBlock led dur q out).pairs.getD k (0, 0)).1 = 0x0f →
      out + 1000 * (((buildBlock led dur q out).pairs.take k).countP
          (fun p => decide (p.1 = 0x0f))) + 1000 <
        PISOUND_OUTPUT_BUFFER_SIZE_MILLIBYTES) := by
  refine ⟨?_, ?_, ?_⟩
  · intro dur q out
    rw [show buildBlock true dur q out = buildTx (1 + 1) true dur q out from rfl,
      buildTx_led]
    refine ⟨rfl, (buildTx_led_false 1 0 q out).1, (buildTx_led_false 1 0 q out).2, ?_⟩
    simp [List.countP_cons, buildTx_no_led_pair 1 0 q out]
  · intro dur q out
    exact buildTx_no_led_pair BLOCK_PAIRS dur q out
  · intro led dur q out k h
    exact buildTx_data_gated BLOCK_PAIRS led dur q out k h

/-- Witness for C6: the LED pair is emitted first even at occupancy 200000
(far above the ceiling), and a data byte goes out under headroom. -/
theorem led_priority_witness :
    (buildBlock true 10 [] (200000 : Int)).pairs.headD (0, 0) = (0xf0, 10) ∧
    (0 : Int) + 1000 * (((buildBlock false 0 [7] (0 : Int)).pairs.take 0).countP
        (fun p => decide (p.1 = 0x0f))) + 1000 <
      PISOUND_OUTPUT_BUFFER_SIZE_MILLIBYTES :=
  ⟨(led_priority.1 10 [] 200000).1,
   led_priority.2.2 false 0 [7] 0 0 (by decide)⟩

/-! ## Concrete scenarios and per-claim theorems -/

/-- Idle persistent state: both fifos empty, no LED request, SPI device
attached, no MIDI output substream, no receive callback. -/
def idleState : GState := ⟨[], [], 0, false, true, false, false⟩

/-- Termination scenario state: 10 outbound bytes queued, otherwise idle. -/
def preloadedState : GState :=
  ⟨[1, 2, 3, 4, 5, 6, 7, 8, 9, 10], [], 0, false, true, false, false⟩

/-- Quiet device: every response slot has a zero validity byte, the
data-available line is never asserted, and `jiffies` advances by one per
iteration. -/
def quietEnvs : Nat → Env := fun k => ⟨[], [0, 0, 0, 0], false, k + 1⟩

/-- State with a single outbound byte queued, otherwise idle. -/
def oneByteState : GState := ⟨[7], [], 0, false, true, false, false⟩

/-- A single quiet iteration one jiffie after session start. -/
def oneEnv : Env := ⟨[], [0, 0, 0, 0], false, 1⟩

/-- C1: handshake round-trip: on a bus whose count slot reports 4 records
followed by the length-prefixed records fw=[0x01,0x02], serial="ABC1234567",
id=[0xDE,0xAD], hw=[0x01,0x00] (all validity bytes non-zero),
`spi_read_info` succeeds and the identity accessors report firmware "1.02",
serial "ABC1234567", id "dead" and hardware "1.0". -/
theorem handshake_roundtrip :
    (spi_read_info c1Bus).1 = Except.ok c1Info ∧
    pisnd_spi_get_fw_version c1Info = "1.02" ∧
    pisnd_spi_get_serial c1Info = "ABC1234567" ∧
    pisnd_spi_get_id c1Info = "dead" ∧
    pisnd_spi_get_hw_version c1Info = "1.0" :=
  ⟨rfl, rfl, rfl, rfl, rfl⟩

/-- C4: with 10 outbound bytes queued, no pending LED command, no MIDI
output substream and a quiet device, one work-handler activation terminates
within 10 iterations and drains the outbound queue to empty. -/
theorem session_termination :
    (pisnd_work_handler 10 preloadedState quietEnvs 0).isSome = true ∧
    (pisnd_work_handler 10 preloadedState quietEnvs 0).map
      (fun r => r.2.g.fifoOut) = some [] :=
  ⟨rfl, rfl⟩

/-- Counterexample for C7: a transfer block holds 2 slot pairs and
`TRANSFER_SIZE` is 4 bytes, refuting "4 slots / 8 bytes per block". -/
theorem block_size_counterexample :
    (workIter ⟨preloadedState, 0, 0⟩ (quietEnvs 0)).tx.length = 2 ∧
    TRANSFER_SIZE = 4 ∧
    ¬((workIter ⟨preloadedState, 0, 0⟩ (quietEnvs 0)).tx.length = 4 ∧
      TRANSFER_SIZE = 8) := by
  refine ⟨rfl, rfl, ?_⟩
  intro h
  exact absurd h.2 (by decide)

/-- C7 amended: every transfer block the session exchanges has the fixed
size of 2 slots of 16 bits each, i.e. `TRANSFER_SIZE` = 4 bytes per block. -/
theorem block_size_amended (st : SessionSt) (e : Env) :
    (workIter st e).tx.length = BLOCK_PAIRS ∧ BLOCK_PAIRS = 2 ∧
      2 * BLOCK_PAIRS = TRANSFER_SIZE ∧ TRANSFER_SIZE = 4 := by
  refine ⟨?_, rfl, rfl, rfl⟩
  exact buildTx_pairs_length BLOCK_PAIRS _ _ _ _

/-- Counterexample for C8: the record length field is the low byte of a
16-bit slot, so a device can only "claim 300" by sending the slot value
300 = 0x012C, which has a valid (non-zero) high byte and claims length 44;
with the handshake's 256-byte destination the read then succeeds instead of
yielding -EINVAL. -/
theorem malformed_length_counterexample :
    lo (slotAt (300 :: List.replicate 44 0x0101) 0) = 44 ∧
    (spi_read_bytes (300 :: List.replicate 44 0x0101) 256).1 =
      .ok (List.replicate 44 1) :=
  ⟨rfl, rfl⟩

/-- C8 amended: a record whose reported length exceeds the destination
capacity yields -EINVAL (a claim of 300 itself cannot occur: the length
field is one byte, and the handshake destination is 256 bytes, so the
over-length check cannot fire there); a failed record read during the
handshake makes `spi_read_info` fail, publishing no identity. -/
theorem malformed_length_amended :
    (∀ bus len, hi (slotAt bus 0) ≠ 0 → len < lo (slotAt bus 0) →
      (spi_read_bytes bus len).1 = .error ()) ∧
    (∀ bus, lo (slotAt bus 0) < 256) ∧
    (spi_read_info [0x0101, 0x0000]).1 = .error () := by
  refine ⟨?_, ?_, rfl⟩
  · intro bus len h0 h1
    rw [spi_read_bytes_unfold]
    simp [h0, h1]
  · intro bus
    exact Nat.mod_lt _ (by decide)

/-- Witness for C8 (amended): a record claiming 255 bytes into a 100-byte
destination is rejected. -/
theorem malformed_length_amended_witness :
    (spi_read_bytes [0x01FF] 100).1 = .error () :=
  malformed_length_amended.1 [0x01FF] 100 (by decide) (by decide)

/-- C9: two LED flash requests before a session leave exactly one request
pending with the later duration (10), and the next session activation emits
exactly one LED command pair, carrying duration 10 -- duration 5 is never
sent. -/
theorem led_last_write_wins :
    (∀ g, (pisnd_spi_flash_leds 10 (pisnd_spi_flash_leds 5 g)).ledFlashDuration
        = 10 ∧
      (pisnd_spi_flash_leds 10 (pisnd_spi_flash_leds 5 g)).ledFlashDurationChanged
        = true) ∧
    (pisnd_work_handler 5
        (pisnd_spi_flash_leds 10 (pisnd_spi_flash_leds 5 idleState))
        quietEnvs 0).map
      (fun r => r.1.filter (fun p => p.1 = 0xf0)) = some [(0xf0, 10)] :=
  ⟨fun _ => ⟨rfl, rfl⟩, rfl⟩

/-- C10: the occupancy estimate is per-activation state: the work handler
always enters its loop with the estimate at zero (it is a local variable of
the handler, not part of the persistent state), and the starting value is
behaviourally relevant -- a carried-over estimate of 126500 would suppress
the send that the real handler performs. -/
theorem occupancy_per_activation :
    (∀ fuel g envs j, g.devicePresent = true →
      pisnd_work_handler fuel g envs j =
        (runLoop fuel ⟨g, 0, j⟩ envs 0).map
          (fun r => (r.1, finalFlush r.2))) ∧
    (workIter ⟨oneByteState, 126500, 0⟩ oneEnv).tx ≠
      (workIter ⟨oneByteState, 0, 0⟩ oneEnv).tx := by
  constructor
  · intro fuel g envs j h
    rw [pisnd_work_handler, if_pos h]
    rcases runLoop fuel ⟨g, 0, j⟩ envs 0 with _ | ⟨t, fin⟩ <;> rfl
  · decide

/-- Witness for C10 at a concrete state with the device attached. -/
theorem occupancy_per_activation_witness :
    pisnd_work_handler 3 oneByteState quietEnvs 0 =
      (runLoop 3 ⟨oneByteState, 0, 0⟩ quietEnvs 0).map
        (fun r => (r.1, finalFlush r.2)) :=
  occupancy_per_activation.1 3 oneByteState quietEnvs 0 rfl

end Pisound
